import Mathlib

/-!
Shallow embedding of the consent core of the cookiepot-eu/consent-sdk
repository: the consent data model (`types.ts`), the storage interception
engine (`storage-blocker.ts`), the script interception engine
(`auto-blocker.ts`), the consent orchestrator (`client.ts`) and the
persistence loader (`storage.ts`), together with theorems settling the
spec claims about them.

JavaScript strings are modelled as Lean `String`s; the handful of string
primitives the source uses (`startsWith`, `toLowerCase`, `includes`) are
re-implemented below over `List Char` so that every definition is
executable and kernel-reducible.
-/

/-- The four consent category names (`ConsentCategory` in types.ts). -/
inductive ConsentCategory where
  | necessary
  | analytics
  | marketing
  | preferences
  deriving DecidableEq, Repr

/-- `ConsentCategories` (types.ts): a record of four boolean consent flags.
The TypeScript type pins `necessary` to the literal `true`; it is modelled
as a `Bool` field here so that claims about the orchestrator forcing it to
`true` are meaningful statements rather than typing artifacts. -/
structure ConsentCategories where
  necessary : Bool
  analytics : Bool
  marketing : Bool
  preferences : Bool
  deriving DecidableEq, Repr

/-- JavaScript member access `consent[category]`. -/
def getCategory (c : ConsentCategories) : ConsentCategory → Bool
  | .necessary => c.necessary
  | .analytics => c.analytics
  | .marketing => c.marketing
  | .preferences => c.preferences

/-- Char-list prefix test used to model JS string primitives. -/
def charsHavePre : List Char → List Char → Bool
  | [], _ => true
  | _ :: _, [] => false
  | a :: as, b :: bs => a == b && charsHavePre as bs

/-- JS `text.startsWith(pat)`. -/
def jsStartsWith (text pat : String) : Bool :=
  charsHavePre pat.data text.data

/-- ASCII lower-casing of one character, as JS `toLowerCase` acts on ASCII. -/
def charToLower (c : Char) : Char :=
  if 65 ≤ c.toNat ∧ c.toNat ≤ 90 then Char.ofNat (c.toNat + 32) else c

/-- JS `s.toLowerCase()` (ASCII fragment), as a char list. -/
def jsToLower (s : String) : List Char :=
  s.data.map charToLower

/-- Char-list containment: `charsContain needle hay = true` iff `needle` occurs
contiguously inside `hay`. Models JS `hay.includes(needle)`. -/
def charsContain (needle : List Char) : List Char → Bool
  | [] => needle.isEmpty
  | b :: bs => charsHavePre needle (b :: bs) || charsContain needle bs

/-- Case-insensitive containment:
`text.toLowerCase().includes(pat.toLowerCase())`. For an ASCII pattern free
of regular-expression metacharacters this is also exactly
`new RegExp(pat, 'i').test(text)` per ECMA-262. -/
def containsCI (text pat : String) : Bool :=
  charsContain (jsToLower pat) (jsToLower text)

/-- A storage pattern value (`pattern: string | RegExp` in storage-blocker.ts).
A `RegExp` value is embedded as its `test` predicate on keys, which is the
only way the source consults it. -/
inductive KeyPattern where
  | lit (s : String)
  | re (test : String → Bool)

/-- `StoragePattern` (storage-blocker.ts): a pattern with its category. -/
structure StoragePattern where
  pattern : KeyPattern
  category : ConsentCategory

/-- The per-pattern match test inside `StorageBlocker.categorizeKey`
(part_003, lines 317–329): a literal string matches by equality or
`startsWith`; a regular expression matches by its `test` method. -/
def keyPatternMatches (p : KeyPattern) (key : String) : Bool :=
  match p with
  | .lit s => key == s || jsStartsWith key s
  | .re test => test key

namespace StorageBlocker

/-- `StorageBlocker.categorizeKey` (part_003, lines 317–329): first matching
pattern in declaration order wins; an unmatched key defaults to
`marketing`. -/
def categorizeKey (patterns : List StoragePattern) (key : String) : ConsentCategory :=
  match patterns with
  | [] => .marketing
  | p :: rest =>
    if keyPatternMatches p.pattern key then p.category else categorizeKey rest key

end StorageBlocker

/-- `ScriptPattern` (types.ts) as consumed by the script engine: the source
type allows `string | RegExp`, but `matchScriptToCategory` immediately
collapses a `RegExp` to its `source` string before matching, so an entry is
embedded as the string handed to `matchesPattern`. -/
structure ScriptPattern where
  pattern : String
  category : ConsentCategory

/-- A script element as the auto-blocker observes it: `src` attribute
(empty string when absent, which is JS-falsy), inline text content
(`textContent || innerHTML`), `type` attribute, the
`data-cookiepot-processed` marker, and the `data-cookiepot-blocked`
category marker. -/
structure ScriptElem where
  src : String
  content : String
  typeAttr : String
  processed : Bool
  blockedMark : Option ConsentCategory
  deriving DecidableEq, Repr

/-- `BlockedScript` (auto-blocker.ts): the record pushed when a script is
neutralized (the DOM element reference is not modelled). -/
structure BlockedScript where
  category : ConsentCategory
  src : Option String
  content : Option String
  deriving DecidableEq, Repr

/-- The behaviour of the browser's `new RegExp(pattern, 'i')` constructor
followed by `.test`: `none` models a constructor throw on an uncompilable
pattern source; `some test` is the compiled case-insensitive regular
expression's `test` method on input text. The regular-expression engine is
a platform builtin, not code of this repository, so it enters the
embedding as a parameter of the script engine. -/
abbrev RegexCompile := String → Option (String → Bool)

/-- The ECMA-262 behaviour of `new RegExp(pat, 'i')` on the fragment of
ASCII patterns free of regular-expression metacharacters: such a pattern
always compiles, and its case-insensitive `test` is exactly
case-insensitive substring containment. Used to evaluate the script engine
at concrete literal patterns such as "ga". -/
def literalRegexCompile : RegexCompile :=
  fun pat => some (fun text => containsCI text pat)

namespace ScriptAutoBlocker

/-- `ScriptAutoBlocker.matchesPattern` (auto-blocker.ts, lines 125–133):
tries `new RegExp(pattern, 'i')` and returns `regex.test(text)`; only when
construction throws does it fall back to
`text.toLowerCase().includes(pattern.toLowerCase())`. -/
def matchesPattern (compile : RegexCompile) (text pat : String) : Bool :=
  match compile pat with
  | some test => test text
  | none => containsCI text pat

/-- `ScriptAutoBlocker.matchScriptToCategory` (auto-blocker.ts,
lines 99–120): first pattern in declaration order whose text matches the
(truthy) `src` or the (truthy) inline content wins. -/
def matchScriptToCategory (compile : RegexCompile) (patterns : List ScriptPattern)
    (s : ScriptElem) : Option ConsentCategory :=
  match patterns with
  | [] => none
  | p :: rest =>
    if (s.src != "" && matchesPattern compile s.src p.pattern)
        || (s.content != "" && matchesPattern compile s.content p.pattern) then
      some p.category
    else
      matchScriptToCategory compile rest s

/-- `ScriptAutoBlocker.hasConsent` (auto-blocker.ts, lines 138–140):
`this.consent[category] === true`. -/
def hasConsent (consent : ConsentCategories) (cat : ConsentCategory) : Bool :=
  getCategory consent cat

/-- `ScriptAutoBlocker.handleScriptTag` (auto-blocker.ts, lines 79–94)
together with `blockScript` (lines 145–166): an already-processed element
is skipped; otherwise the element is classified, neutralized (type set to
`text/plain`, blocked marker set, `src` attribute removed) and recorded
only when a category is found whose consent is not granted; in every
non-skip case the element is marked processed. Returns the updated element
and blocked-script list. -/
def handleScriptTag (compile : RegexCompile) (patterns : List ScriptPattern)
    (consent : ConsentCategories) (blocked : List BlockedScript) (s : ScriptElem) :
    ScriptElem × List BlockedScript :=
  if s.processed then (s, blocked)
  else
    match matchScriptToCategory compile patterns s with
    | some cat =>
      if ¬ hasConsent consent cat then
        let entry : BlockedScript :=
          { category := cat
            src := if s.src != "" then some s.src else none
            content := if s.content != "" then some s.content else none }
        ({ s with typeAttr := "text/plain"
                  blockedMark := some cat
                  src := ""
                  processed := true },
          blocked ++ [entry])
      else
        ({ s with processed := true }, blocked)
    | none => ({ s with processed := true }, blocked)

end ScriptAutoBlocker

/-- The kind tag of a queued operation (`type` in storage-blocker.ts). -/
inductive StorageOpType where
  | setItem
  | removeItem
  | clear
  deriving DecidableEq, Repr

/-- Which of the two intercepted storage backends an operation targets. -/
inductive StorageType where
  | localStorage
  | sessionStorage
  deriving DecidableEq, Repr

/-- `QueuedStorageOperation` (storage-blocker.ts, lines 27–34). -/
structure QueuedStorageOperation where
  type : StorageOpType
  storageType : StorageType
  key : Option String
  value : Option String
  category : ConsentCategory
  timestamp : Nat
  deriving DecidableEq, Repr

/-- The contents of one browser storage backend, as an association list in
insertion order. -/
abbrev StorageMap := List (String × String)

/-- `Storage.setItem` semantics on the contents: overwrite an existing key in
place, otherwise append. -/
def mapSet (m : StorageMap) (k v : String) : StorageMap :=
  if m.any (fun p => p.1 == k) then m.map (fun p => if p.1 == k then (k, v) else p)
  else m ++ [(k, v)]

/-- `Storage.removeItem` semantics on the contents. -/
def mapRemove (m : StorageMap) (k : String) : StorageMap :=
  m.filter (fun p => p.1 != k)

/-- The mutable state of a `StorageBlocker` instance together with the
contents of the two storage backends it intercepts. `origLocal` /
`origSession` record whether the saved original methods for the backend
exist (`SavedMethods | null` in the source); the saved methods act on the
corresponding `*Data` contents. `queueOperations` is the source condition
`config.queueOperations !== false`; `maxQueueSize` is `config.maxQueueSize`
(defaulted to 100 at its use site, as in the source). -/
structure BlockerState where
  queue : List QueuedStorageOperation
  consent : ConsentCategories
  queueOperations : Bool
  maxQueueSize : Option Nat
  origLocal : Bool
  origSession : Bool
  active : Bool
  localData : StorageMap
  sessionData : StorageMap
  deriving DecidableEq, Repr

namespace StorageBlocker

/-- `StorageBlocker.hasConsent` (storage-blocker.ts, lines 331–334):
`necessary` is always satisfied, otherwise look up the flag. -/
def hasConsent (consent : ConsentCategories) (cat : ConsentCategory) : Bool :=
  match cat with
  | .necessary => true
  | _ => getCategory consent cat

/-- The queue update inside `StorageBlocker.queueOperation` (lines 336–343):
when the queue has reached `maxSize`, the oldest entry is shifted off; then
the new operation is pushed. -/
def queuePush (maxSize : Nat) (q : List QueuedStorageOperation)
    (op : QueuedStorageOperation) : List QueuedStorageOperation :=
  (if maxSize ≤ q.length then q.tail else q) ++ [op]

/-- `StorageBlocker.queueOperation` (lines 336–343) on the blocker state. -/
def queueOperation (st : BlockerState) (op : QueuedStorageOperation) : BlockerState :=
  { st with queue := queuePush (st.maxQueueSize.getD 100) st.queue op }

/-- The effect of one queued operation on one backend's contents via the
saved original methods (the `switch` of `executeOperation`,
lines 367–381, including its null-guards on `key`/`value`). -/
def applyOp (m : StorageMap) (op : QueuedStorageOperation) : StorageMap :=
  match op.type with
  | .setItem =>
    match op.key, op.value with
    | some k, some v => mapSet m k v
    | _, _ => m
  | .removeItem =>
    match op.key with
    | some k => mapRemove m k
    | none => m
  | .clear => []

/-- `StorageBlocker.executeOperation` (lines 363–382): returns early when
the saved original methods for the operation's backend are gone (as after
`stop()`); otherwise applies the operation to that backend's contents. -/
def executeOperation (st : BlockerState) (op : QueuedStorageOperation) : BlockerState :=
  match op.storageType with
  | .localStorage =>
    if st.origLocal then { st with localData := applyOp st.localData op } else st
  | .sessionStorage =>
    if st.origSession then { st with sessionData := applyOp st.sessionData op } else st

/-- The loop of `StorageBlocker.processQueue` (lines 345–361): walk the queue
in original order, executing each operation whose category is satisfied and
collecting the others. Returns the remaining operations and the state after
the executions. -/
def processQueueAux (st : BlockerState) :
    List QueuedStorageOperation → List QueuedStorageOperation × BlockerState
  | [] => ([], st)
  | op :: rest =>
    if hasConsent st.consent op.category then
      processQueueAux (executeOperation st op) rest
    else
      let r := processQueueAux st rest
      (op :: r.1, r.2)

/-- `StorageBlocker.processQueue` (lines 345–361). -/
def processQueue (st : BlockerState) : BlockerState :=
  let r := processQueueAux st st.queue
  { r.2 with queue := r.1 }

/-- `StorageBlocker.updateConsent` (lines 161–164): replace the internal
consent reference, then process the queue. -/
def updateConsent (st : BlockerState) (consent : ConsentCategories) : BlockerState :=
  processQueue { st with consent := consent }

/-- `StorageBlocker.stop` (lines 142–156): restore the original storage
methods (which leaves the stored contents untouched) and null the saved
references; a no-op when not active. -/
def stop (st : BlockerState) : BlockerState :=
  if st.active then { st with origLocal := false, origSession := false, active := false }
  else st

/-- The `clear` override installed by `StorageBlocker.wrapStorage`
(lines 263–285): executing the underlying clear requires `marketing`
consent; otherwise a `clear` operation with category `marketing` is queued,
unless queueing is disabled. -/
def interceptedClear (st : BlockerState) (stype : StorageType) (now : Nat) : BlockerState :=
  if hasConsent st.consent .marketing then
    match stype with
    | .localStorage => { st with localData := [] }
    | .sessionStorage => { st with sessionData := [] }
  else if st.queueOperations then
    queueOperation st
      { type := .clear, storageType := stype, key := none, value := none,
        category := .marketing, timestamp := now }
  else st

end StorageBlocker

/-- The argument of `CookiePot.setConsent`: `Partial<ConsentCategories>`.
Each member may be absent; a supplied `necessary` member is representable
(the TypeScript type admits it) but the source never reads it. -/
structure ConsentUpdate where
  necessary : Option Bool
  analytics : Option Bool
  marketing : Option Bool
  preferences : Option Bool
  deriving DecidableEq, Repr

/-- `ConsentState` (types.ts, lines 166–171): the persisted consent record. -/
structure ConsentState where
  visitorId : String
  sessionId : String
  categories : ConsentCategories
  timestamp : Option String
  deriving DecidableEq, Repr

/-- The in-memory state owned by the `CookiePot` orchestrator, together with
the observable state of its collaborators: the two persistence backends
holding the consent record (cookie and localStorage backup), the consent
snapshots last pushed into the Google consent-mode adapter and the script
auto-blocker (`none` when the component is not configured, mirroring the
`null` checks in the source), and the emitted events. -/
structure OrchestratorState where
  visitorId : String
  sessionId : String
  consentState : ConsentCategories
  cookieStore : Option ConsentState
  localStore : Option ConsentState
  googleSnapshot : Option ConsentCategories
  blockerSnapshot : Option ConsentCategories
  emitted : List (String × ConsentCategories)
  deriving DecidableEq, Repr

/-- The observable steps of `CookiePot.setConsent` and
`CookiePot.resetConsent`, in execution order. -/
inductive OrchestratorEffect where
  | updateLocalState
  | saveToStorage
  | clearStorage
  | updateGoogle
  | updateBlocker
  | emitChange
  | reportConsent
  | logReportError
  deriving DecidableEq, Repr

/-- The default consent state synthesized by the orchestrator
(`necessary` true, everything else false). -/
def defaultConsent : ConsentCategories :=
  { necessary := true, analytics := false, marketing := false, preferences := false }

namespace CookiePot

/-- The state merge at the top of `CookiePot.setConsent` (part_002,
lines 306–312): `necessary` is set to the literal `true`; every other
category is taken from the update when present (`??`), else kept. The
update's `necessary` member is never read. -/
def mergeConsent (cur : ConsentCategories) (u : ConsentUpdate) : ConsentCategories :=
  { necessary := true
    analytics := u.analytics.getD cur.analytics
    marketing := u.marketing.getD cur.marketing
    preferences := u.preferences.getD cur.preferences }

/-- The effect trace of the synchronous part of `CookiePot.setConsent`
(everything before `apiClient.submitConsent` is awaited): state update,
persistence to both backends, the two collaborator propagations (each only
when the component is configured), and the change notification. -/
def localEffects (st : OrchestratorState) : List OrchestratorEffect :=
  [.updateLocalState, .saveToStorage]
    ++ (if st.googleSnapshot.isSome then [.updateGoogle] else [])
    ++ (if st.blockerSnapshot.isSome then [.updateBlocker] else [])
    ++ [.emitChange]

/-- `CookiePot.setConsent` (part_002, lines 302–356). `ts` is the fresh
timestamp; `report` is the outcome of the awaited
`apiClient.submitConsent` call, whose surrounding `try`/`catch` is explicit
here: an error is logged and swallowed, never rethrown. Returns the
resulting state and the ordered effect trace. -/
def setConsent (st : OrchestratorState) (u : ConsentUpdate) (ts : String)
    (report : Except String Unit) : OrchestratorState × List OrchestratorEffect :=
  let newState := mergeConsent st.consentState u
  let record : ConsentState :=
    { visitorId := st.visitorId, sessionId := st.sessionId,
      categories := newState, timestamp := some ts }
  let st1 :=
    { st with consentState := newState,
              cookieStore := some record,
              localStore := some record,
              googleSnapshot := st.googleSnapshot.map (fun _ => newState),
              blockerSnapshot := st.blockerSnapshot.map (fun _ => newState),
              emitted := st.emitted ++ [("consent:change", newState)] }
  let effects := localEffects st ++ [.reportConsent]
    ++ (match report with | .ok _ => [] | .error _ => [.logReportError])
  (st1, effects)

/-- `CookiePot.resetConsent` (part_002, lines 391–402): clear the record
from both persistence backends, revert the in-memory state to the
defaults, and emit a change notification. Neither
`googleConsentMode.updateConsent` nor `scriptAutoBlocker.updateConsent` is
called, and the remote collector is not contacted. -/
def resetConsent (st : OrchestratorState) : OrchestratorState × List OrchestratorEffect :=
  ({ st with cookieStore := none,
             localStore := none,
             consentState := defaultConsent,
             emitted := st.emitted ++ [("consent:change", defaultConsent)] },
    [.clearStorage, .updateLocalState, .emitChange])

end CookiePot

/-- A JSON value, as produced by a successful `JSON.parse`. -/
inductive Json where
  | str (s : String)
  | num (n : Int)
  | bool (b : Bool)
  | null
  | arr (elems : List Json)
  | obj (fields : List (String × Json))

/-- JS member access `parsed[k]` on a parsed JSON object; `none` both for a
missing member and for a non-object value. -/
def Json.getField (j : Json) (k : String) : Option Json :=
  match j with
  | .obj fields => (fields.find? (fun f => f.1 == k)).map (fun f => f.2)
  | _ => none

/-- `z.string().min(lo).max(hi)` on a JSON member (string length counted in
code units, which coincides with character count for the ASCII fragment
modelled here). -/
def parseStringLen (j : Option Json) (lo hi : Nat) : Option String :=
  match j with
  | some (.str s) => if lo ≤ s.data.length ∧ s.data.length ≤ hi then some s else none
  | _ => none

/-- `z.string().optional()` on a JSON member: absent is fine, a present
member must be a string. -/
def parseOptString (j : Option Json) : Option (Option String) :=
  match j with
  | none => some none
  | some (.str s) => some (some s)
  | some _ => none

/-- `ConsentCategoriesSchema.safeParse` (types.ts, lines 15–20): an object
whose `necessary` is the literal `true` and whose `analytics`, `marketing`
and `preferences` are booleans. -/
def parseCategories (j : Json) : Option ConsentCategories :=
  match j.getField "necessary", j.getField "analytics",
        j.getField "marketing", j.getField "preferences" with
  | some (.bool true), some (.bool a), some (.bool m), some (.bool p) =>
    some { necessary := true, analytics := a, marketing := m, preferences := p }
  | _, _, _, _ => none

/-- `ConsentStateSchema.safeParse` (types.ts, lines 173–178). -/
def parseConsentState (j : Json) : Option ConsentState :=
  match j with
  | .obj _ =>
    match parseStringLen (j.getField "visitorId") 1 128,
          parseStringLen (j.getField "sessionId") 1 128,
          (j.getField "categories").bind parseCategories,
          parseOptString (j.getField "timestamp") with
    | some v, some sid, some cats, some ts =>
      some { visitorId := v, sessionId := sid, categories := cats, timestamp := ts }
    | _, _, _, _ => none
  | _ => none

/-- The body of `getConsentFromStorage` inside its `try` (storage.ts,
lines 435–456). `parse` models `JSON.parse`: `none` means the call threw,
which the embedding propagates as `.error` to the `catch`. `cookieVal` is
the raw cookie text (`getCookie`), `localAvail` is
`typeof localStorage !== 'undefined'`, `localVal` the raw
`localStorage.getItem` result; an empty string is JS-falsy and skips its
branch. The returned `Bool` records whether the localStorage fallback
branch ran. -/
def getConsentBody (parse : String → Option Json) (cookieVal : Option String)
    (localAvail : Bool) (localVal : Option String) :
    Except Unit (Option ConsentState × Bool) :=
  let cookieStep : Except Unit (Option ConsentState) :=
    match cookieVal with
    | some cv =>
      if cv != "" then
        match parse cv with
        | none => .error ()
        | some j => .ok (parseConsentState j)
      else .ok none
    | none => .ok none
  match cookieStep with
  | .error _ => .error ()
  | .ok (some st) => .ok (some st, false)
  | .ok none =>
    if localAvail then
      match localVal with
      | some lv =>
        if lv != "" then
          match parse lv with
          | none => .error ()
          | some j => .ok (parseConsentState j, true)
        else .ok (none, true)
      | none => .ok (none, true)
    else .ok (none, false)

/-- `getConsentFromStorage` (storage.ts, lines 434–462): the `catch` turns a
thrown parse error into the `null` result. Returns the loaded record (or
`none`) and whether the fallback store was consulted. -/
def getConsentFromStorage (parse : String → Option Json) (cookieVal : Option String)
    (localAvail : Bool) (localVal : Option String) : Option ConsentState × Bool :=
  match getConsentBody parse cookieVal localAvail localVal with
  | .ok r => r
  | .error _ => (none, false)

/-- Whether the cookie store yields a structurally valid record: nonempty
cookie text that parses and passes `ConsentStateSchema`. -/
def cookieValidRecord (parse : String → Option Json) (cookieVal : Option String) :
    Option ConsentState :=
  match cookieVal with
  | some cv => if cv != "" then (parse cv).bind parseConsentState else none
  | none => none

/-- Whether the fallback store yields a structurally valid record. -/
def localValidRecord (parse : String → Option Json) (localAvail : Bool)
    (localVal : Option String) : Option ConsentState :=
  if localAvail then
    match localVal with
    | some lv => if lv != "" then (parse lv).bind parseConsentState else none
    | none => none
  else none

/-- A sample well-formed persisted consent record in JSON form, used to
exercise the loader at a concrete input. -/
def sampleConsentJson : Json :=
  Json.obj
    [("visitorId", .str "v1"), ("sessionId", .str "s1"),
     ("categories", .obj
        [("necessary", .bool true), ("analytics", .bool true),
         ("marketing", .bool false), ("preferences", .bool false)])]

/-- A sample `JSON.parse` behaviour: the text "good" parses to the sample
record, anything else throws. -/
def sampleParse : String → Option Json :=
  fun s => if s == "good" then some sampleConsentJson else none

theorem executeOperation_fields (st : BlockerState) (op : QueuedStorageOperation) :
    (StorageBlocker.executeOperation st op).consent = st.consent
    ∧ (StorageBlocker.executeOperation st op).origLocal = st.origLocal
    ∧ (StorageBlocker.executeOperation st op).origSession = st.origSession := by
  unfold StorageBlocker.executeOperation
  cases op.storageType <;> dsimp only <;> split <;> simp

theorem executeOperation_stopped (st : BlockerState) (op : QueuedStorageOperation)
    (h1 : st.origLocal = false) (h2 : st.origSession = false) :
    StorageBlocker.executeOperation st op = st := by
  unfold StorageBlocker.executeOperation
  cases op.storageType <;> simp [h1, h2]

theorem executeOperation_data_local (st : BlockerState) (op : QueuedStorageOperation)
    (h1 : st.origLocal = true) (hs : op.storageType = StorageType.localStorage) :
    (StorageBlocker.executeOperation st op).localData = StorageBlocker.applyOp st.localData op
    ∧ (StorageBlocker.executeOperation st op).sessionData = st.sessionData := by
  unfold StorageBlocker.executeOperation
  rw [hs]
  simp [h1]

theorem executeOperation_data_session (st : BlockerState) (op : QueuedStorageOperation)
    (h2 : st.origSession = true) (hs : op.storageType = StorageType.sessionStorage) :
    (StorageBlocker.executeOperation st op).localData = st.localData
    ∧ (StorageBlocker.executeOperation st op).sessionData = StorageBlocker.applyOp st.sessionData op := by
  unfold StorageBlocker.executeOperation
  rw [hs]
  simp [h2]

theorem processQueueAux_spec (ops : List QueuedStorageOperation) :
    ∀ st : BlockerState, st.origLocal = true → st.origSession = true →
      (StorageBlocker.processQueueAux st ops).1
          = ops.filter (fun op => !(StorageBlocker.hasConsent st.consent op.category))
      ∧ (StorageBlocker.processQueueAux st ops).2.localData
          = (ops.filter (fun op => StorageBlocker.hasConsent st.consent op.category
              && op.storageType == StorageType.localStorage)).foldl StorageBlocker.applyOp st.localData
      ∧ (StorageBlocker.processQueueAux st ops).2.sessionData
          = (ops.filter (fun op => StorageBlocker.hasConsent st.consent op.category
              && op.storageType == StorageType.sessionStorage)).foldl StorageBlocker.applyOp st.sessionData
      ∧ (StorageBlocker.processQueueAux st ops).2.consent = st.consent := by
  induction ops with
  | nil =>
    intro st h1 h2
    simp [StorageBlocker.processQueueAux]
  | cons op rest ih =>
    intro st h1 h2
    by_cases hc : StorageBlocker.hasConsent st.consent op.category = true
    · have hfields := executeOperation_fields st op
      have ih2 := ih (StorageBlocker.executeOperation st op)
        (hfields.2.1.trans h1) (hfields.2.2.trans h2)
      cases hsty : op.storageType with
      | localStorage =>
        have hdata := executeOperation_data_local st op h1 hsty
        simp only [StorageBlocker.processQueueAux, hc, if_true, List.filter_cons,
          hsty, ih2.1, ih2.2.1, ih2.2.2.1, ih2.2.2.2, hfields.1, hdata.1, hdata.2,
          Bool.not_true, beq_self_eq_true, Bool.and_true, beq_iff_eq]
        simp [hc]
      | sessionStorage =>
        have hdata := executeOperation_data_session st op h2 hsty
        simp only [StorageBlocker.processQueueAux, hc, if_true, List.filter_cons,
          hsty, ih2.1, ih2.2.1, ih2.2.2.1, ih2.2.2.2, hfields.1, hdata.1, hdata.2,
          Bool.not_true, beq_self_eq_true, Bool.and_true, beq_iff_eq]
        simp [hc]
    · have hc' : StorageBlocker.hasConsent st.consent op.category = false :=
        Bool.eq_false_iff.mpr hc
      have ihs := ih st h1 h2
      simp [StorageBlocker.processQueueAux, hc', List.filter_cons, ihs.1, ihs.2.1,
        ihs.2.2.1, ihs.2.2.2]

theorem processQueueAux_stopped (ops : List QueuedStorageOperation) :
    ∀ st : BlockerState, st.origLocal = false → st.origSession = false →
      StorageBlocker.processQueueAux st ops
        = (ops.filter (fun op => !(StorageBlocker.hasConsent st.consent op.category)), st) := by
  induction ops with
  | nil => intro st h1 h2; simp [StorageBlocker.processQueueAux]
  | cons op rest ih =>
    intro st h1 h2
    by_cases hc : StorageBlocker.hasConsent st.consent op.category = true
    · simp [StorageBlocker.processQueueAux, hc, executeOperation_stopped st op h1 h2,
        ih st h1 h2, List.filter_cons]
    · have hc' : StorageBlocker.hasConsent st.consent op.category = false :=
        Bool.eq_false_iff.mpr hc
      simp [StorageBlocker.processQueueAux, hc', ih st h1 h2, List.filter_cons]

/-- C2: `StorageBlocker.updateConsent` replaces the internal consent
reference and then replays the queue in original enqueue order: while the
saved original storage methods exist, every queued operation whose category
is now satisfied (granted, or `necessary`) is executed against its
backend's contents in original order and removed from the queue, and every
operation whose category remains unsatisfied stays queued in its original
relative order. -/
theorem c2_updateConsent_replays_queue (st : BlockerState) (c : ConsentCategories)
    (hL : st.origLocal = true) (hS : st.origSession = true) :
    (StorageBlocker.updateConsent st c).consent = c
    ∧ (StorageBlocker.updateConsent st c).queue
        = st.queue.filter (fun op => !(StorageBlocker.hasConsent c op.category))
    ∧ (StorageBlocker.updateConsent st c).localData
        = (st.queue.filter (fun op => StorageBlocker.hasConsent c op.category
            && op.storageType == StorageType.localStorage)).foldl
              StorageBlocker.applyOp st.localData
    ∧ (StorageBlocker.updateConsent st c).sessionData
        = (st.queue.filter (fun op => StorageBlocker.hasConsent c op.category
            && op.storageType == StorageType.sessionStorage)).foldl
              StorageBlocker.applyOp st.sessionData := by
  have h := processQueueAux_spec st.queue { st with consent := c } hL hS
  exact ⟨h.2.2.2, h.1, h.2.1, h.2.2.1⟩

/-- C2 witness: with analytics newly granted, the queued analytics write is
executed into localStorage and removed, while the queued marketing write
stays queued. -/
theorem c2_updateConsent_replays_queue_witness :
    (StorageBlocker.updateConsent
        { queue := [⟨.setItem, .localStorage, some "k", some "v", .analytics, 1⟩,
                    ⟨.setItem, .localStorage, some "m", some "n", .marketing, 2⟩],
          consent := ⟨true, false, false, false⟩, queueOperations := true,
          maxQueueSize := none, origLocal := true, origSession := true,
          active := true, localData := [], sessionData := [] }
        ⟨true, true, false, false⟩).queue
      = [⟨.setItem, .localStorage, some "m", some "n", .marketing, 2⟩]
    ∧ (StorageBlocker.updateConsent
        { queue := [⟨.setItem, .localStorage, some "k", some "v", .analytics, 1⟩,
                    ⟨.setItem, .localStorage, some "m", some "n", .marketing, 2⟩],
          consent := ⟨true, false, false, false⟩, queueOperations := true,
          maxQueueSize := none, origLocal := true, origSession := true,
          active := true, localData := [], sessionData := [] }
        ⟨true, true, false, false⟩).localData
      = [("k", "v")] := by
  have h := c2_updateConsent_replays_queue
    { queue := [⟨.setItem, .localStorage, some "k", some "v", .analytics, 1⟩,
                ⟨.setItem, .localStorage, some "m", some "n", .marketing, 2⟩],
      consent := ⟨true, false, false, false⟩, queueOperations := true,
      maxQueueSize := none, origLocal := true, origSession := true,
      active := true, localData := [], sessionData := [] }
    ⟨true, true, false, false⟩ rfl rfl
  exact ⟨h.2.1.trans (by decide), h.2.2.1.trans (by decide)⟩

/-- C9: once `StorageBlocker.stop()` has run (nulling the saved original
methods), a later `updateConsent` that satisfies the category of a queued
operation removes it from the queue without executing it:
`executeOperation` returns early, so both storage backends' contents are
unchanged and the satisfiable queued operations are silently discarded. -/
theorem c9_stop_then_update_discards (st : BlockerState) (c : ConsentCategories)
    (h : st.active = true) :
    (StorageBlocker.stop st).origLocal = false
    ∧ (StorageBlocker.stop st).origSession = false
    ∧ (StorageBlocker.updateConsent (StorageBlocker.stop st) c).queue
        = st.queue.filter (fun op => !(StorageBlocker.hasConsent c op.category))
    ∧ (StorageBlocker.updateConsent (StorageBlocker.stop st) c).localData = st.localData
    ∧ (StorageBlocker.updateConsent (StorageBlocker.stop st) c).sessionData = st.sessionData := by
  have hstop : StorageBlocker.stop st
      = { st with origLocal := false, origSession := false, active := false } := by
    simp [StorageBlocker.stop, h]
  have hspec := processQueueAux_stopped st.queue
    { st with consent := c, origLocal := false, origSession := false, active := false }
    rfl rfl
  rw [hstop]
  refine ⟨rfl, rfl, ?_, ?_, ?_⟩ <;>
    simp [StorageBlocker.updateConsent, StorageBlocker.processQueue, hspec]

/-- C9 witness: after `stop`, granting analytics removes the queued
analytics write but leaves both backends' contents unchanged. -/
theorem c9_stop_then_update_discards_witness :
    (StorageBlocker.updateConsent
        (StorageBlocker.stop
          { queue := [⟨.setItem, .localStorage, some "k", some "v", .analytics, 1⟩],
            consent := ⟨true, false, false, false⟩, queueOperations := true,
            maxQueueSize := none, origLocal := true, origSession := true,
            active := true, localData := [("a", "b")], sessionData := [] })
        ⟨true, true, false, false⟩).queue = []
    ∧ (StorageBlocker.updateConsent
        (StorageBlocker.stop
          { queue := [⟨.setItem, .localStorage, some "k", some "v", .analytics, 1⟩],
            consent := ⟨true, false, false, false⟩, queueOperations := true,
            maxQueueSize := none, origLocal := true, origSession := true,
            active := true, localData := [("a", "b")], sessionData := [] })
        ⟨true, true, false, false⟩).localData = [("a", "b")] := by
  have h := c9_stop_then_update_discards
    { queue := [⟨.setItem, .localStorage, some "k", some "v", .analytics, 1⟩],
      consent := ⟨true, false, false, false⟩, queueOperations := true,
      maxQueueSize := none, origLocal := true, origSession := true,
      active := true, localData := [("a", "b")], sessionData := [] }
    ⟨true, true, false, false⟩ rfl
  exact ⟨h.2.2.1.trans (by decide), h.2.2.2.1⟩

/-- C6: while the blocker is active, the intercepted clear-all call only
reaches the underlying storage when marketing consent is granted; without
marketing consent neither backend's contents change and, unless queueing is
disabled, a `clear` operation with category `marketing` is enqueued (via
the bounded queue push). -/
theorem c6_clear_requires_marketing (st : BlockerState) (stype : StorageType) (now : Nat)
    (h : st.consent.marketing = false) :
    (StorageBlocker.interceptedClear st stype now).localData = st.localData
    ∧ (StorageBlocker.interceptedClear st stype now).sessionData = st.sessionData
    ∧ (st.queueOperations = true →
        (StorageBlocker.interceptedClear st stype now).queue
          = StorageBlocker.queuePush (st.maxQueueSize.getD 100) st.queue
              ⟨.clear, stype, none, none, .marketing, now⟩)
    ∧ (st.queueOperations = false →
        (StorageBlocker.interceptedClear st stype now).queue = st.queue) := by
  have hm : StorageBlocker.hasConsent st.consent .marketing = false := by
    simp [StorageBlocker.hasConsent, getCategory, h]
  cases hq : st.queueOperations <;>
    simp [StorageBlocker.interceptedClear, hm, hq, StorageBlocker.queueOperation]

/-- C6 witness: without marketing consent a clear-all on localStorage leaves
the contents alone and enqueues a marketing-classified clear operation. -/
theorem c6_clear_requires_marketing_witness :
    (StorageBlocker.interceptedClear
        { queue := [], consent := ⟨true, true, false, true⟩, queueOperations := true,
          maxQueueSize := none, origLocal := true, origSession := true,
          active := true, localData := [("x", "y")], sessionData := [] }
        .localStorage 7).localData = [("x", "y")]
    ∧ (StorageBlocker.interceptedClear
        { queue := [], consent := ⟨true, true, false, true⟩, queueOperations := true,
          maxQueueSize := none, origLocal := true, origSession := true,
          active := true, localData := [("x", "y")], sessionData := [] }
        .localStorage 7).queue = [⟨.clear, .localStorage, none, none, .marketing, 7⟩] := by
  have h := c6_clear_requires_marketing
    { queue := [], consent := ⟨true, true, false, true⟩, queueOperations := true,
      maxQueueSize := none, origLocal := true, origSession := true,
      active := true, localData := [("x", "y")], sessionData := [] }
    .localStorage 7 rfl
  exact ⟨h.1, (h.2.2.1 rfl).trans (by decide)⟩

theorem queuePush_length (N : Nat) (hN : 1 ≤ N) (q : List QueuedStorageOperation)
    (op : QueuedStorageOperation) (hq : q.length ≤ N) :
    (StorageBlocker.queuePush N q op).length ≤ N := by
  unfold StorageBlocker.queuePush
  by_cases hfull : N ≤ q.length
  · rw [if_pos hfull]
    cases q with
    | nil =>
      simp only [List.tail_nil, List.nil_append, List.length_cons, List.length_nil]
      omega
    | cons a t =>
      simp only [List.tail_cons, List.length_append, List.length_cons, List.length_nil] at hq ⊢
      omega
  · rw [if_neg hfull]
    simp only [List.length_append, List.length_cons, List.length_nil]
    omega

theorem foldl_queuePush (N : Nat) (hN : 1 ≤ N) :
    ∀ (ops q : List QueuedStorageOperation), q.length ≤ N →
      List.foldl (StorageBlocker.queuePush N) q ops
        = (q ++ ops).drop ((q ++ ops).length - N) := by
  intro ops
  induction ops with
  | nil =>
    intro q hq
    have h0 : q.length - N = 0 := Nat.sub_eq_zero_of_le hq
    simp [h0]
  | cons op rest ih =>
    intro q hq
    rw [List.foldl_cons, ih (StorageBlocker.queuePush N q op) (queuePush_length N hN q op hq)]
    unfold StorageBlocker.queuePush
    by_cases hfull : N ≤ q.length
    · rw [if_pos hfull]
      cases q with
      | nil =>
        simp only [List.length_nil, Nat.le_zero] at hfull
        omega
      | cons a t =>
        have hflat : t ++ [op] ++ rest = t ++ op :: rest := by simp
        have hlen : (a :: (t ++ op :: rest)).length - N
            = ((t ++ [op] ++ rest).length - N) + 1 := by
          simp only [List.length_append, List.length_cons, List.length_nil] at hq hfull ⊢
          omega
        rw [List.tail_cons, List.cons_append, hlen, List.drop_succ_cons, hflat]
    · rw [if_neg hfull]
      simp [List.append_assoc]

/-- C3 counterexample: `config.maxQueueSize` is an unvalidated number; with
the queue bounded at capacity N = 0, enqueuing N + 1 = 1 operation leaves
the queue at length 1, so the claim's "the queue length never exceeds N"
fails at N = 0 (the shift of the oldest entry is a no-op on an empty
queue, and the new operation is pushed regardless). -/
theorem c3_counterexample :
    (StorageBlocker.queueOperation
        { queue := [], consent := ⟨true, false, false, false⟩, queueOperations := true,
          maxQueueSize := some 0, origLocal := true, origSession := true,
          active := true, localData := [], sessionData := [] }
        ⟨.setItem, .localStorage, some "k", some "v", .marketing, 0⟩).queue.length = 1
    ∧ ¬((StorageBlocker.queueOperation
        { queue := [], consent := ⟨true, false, false, false⟩, queueOperations := true,
          maxQueueSize := some 0, origLocal := true, origSession := true,
          active := true, localData := [], sessionData := [] }
        ⟨.setItem, .localStorage, some "k", some "v", .marketing, 0⟩).queue.length ≤ 0) := by
  decide

/-- C3 (amended): for every capacity N ≥ 1 (`config.maxQueueSize`, default
100, whenever it is at least 1), enqueuing N + 1 operations into an empty
queue leaves exactly the N most recently enqueued operations in original
relative order with the single oldest entry absent, and the queue length
never exceeds N. (`queueOperation` pushes through `queuePush` with the
configured capacity defaulted to 100.) -/
theorem c3_amended_drop_oldest (N : Nat) (hN : 1 ≤ N) :
    (∀ (st : BlockerState) (op : QueuedStorageOperation),
        (StorageBlocker.queueOperation st op).queue
          = StorageBlocker.queuePush (st.maxQueueSize.getD 100) st.queue op)
    ∧ (∀ ops : List QueuedStorageOperation, ops.length = N + 1 →
        List.foldl (StorageBlocker.queuePush N) [] ops = ops.drop 1)
    ∧ (∀ ops : List QueuedStorageOperation,
        (List.foldl (StorageBlocker.queuePush N) [] ops).length ≤ N) := by
  refine ⟨fun st op => rfl, ?_, ?_⟩
  · intro ops hlen
    rw [foldl_queuePush N hN ops [] (by simp), List.nil_append, hlen,
      Nat.add_sub_cancel_left]
  · intro ops
    rw [foldl_queuePush N hN ops [] (by simp), List.nil_append]
    simp only [List.length_drop]
    omega

/-- C3 witness: capacity 2, three enqueues; the oldest entry is evicted and
the two most recent remain in order. -/
theorem c3_amended_drop_oldest_witness :
    List.foldl (StorageBlocker.queuePush 2) []
        [⟨.setItem, .localStorage, some "a", some "1", .marketing, 0⟩,
         ⟨.setItem, .localStorage, some "b", some "2", .marketing, 1⟩,
         ⟨.setItem, .localStorage, some "c", some "3", .marketing, 2⟩]
      = [⟨.setItem, .localStorage, some "b", some "2", .marketing, 1⟩,
         ⟨.setItem, .localStorage, some "c", some "3", .marketing, 2⟩] := by
  have h := (c3_amended_drop_oldest 2 (by decide)).2.1
    [⟨.setItem, .localStorage, some "a", some "1", .marketing, 0⟩,
     ⟨.setItem, .localStorage, some "b", some "2", .marketing, 1⟩,
     ⟨.setItem, .localStorage, some "c", some "3", .marketing, 2⟩] rfl
  exact h.trans (by decide)

/-- C1: after `CookiePot.setConsent`, the resulting in-memory state has
`necessary` true regardless of any caller-supplied value for it; every
category omitted from the partial update keeps its prior value and every
supplied category takes the supplied value. -/
theorem c1_setConsent_merges (st : OrchestratorState) (u : ConsentUpdate) (ts : String)
    (report : Except String Unit) :
    (CookiePot.setConsent st u ts report).1.consentState.necessary = true
    ∧ (∀ b, (CookiePot.setConsent st { u with necessary := some b } ts report).1.consentState
          = (CookiePot.setConsent st u ts report).1.consentState)
    ∧ (u.analytics = none →
        (CookiePot.setConsent st u ts report).1.consentState.analytics
          = st.consentState.analytics)
    ∧ (∀ b, u.analytics = some b →
        (CookiePot.setConsent st u ts report).1.consentState.analytics = b)
    ∧ (u.marketing = none →
        (CookiePot.setConsent st u ts report).1.consentState.marketing
          = st.consentState.marketing)
    ∧ (∀ b, u.marketing = some b →
        (CookiePot.setConsent st u ts report).1.consentState.marketing = b)
    ∧ (u.preferences = none →
        (CookiePot.setConsent st u ts report).1.consentState.preferences
          = st.consentState.preferences)
    ∧ (∀ b, u.preferences = some b →
        (CookiePot.setConsent st u ts report).1.consentState.preferences = b) := by
  refine ⟨rfl, fun b => rfl, ?_, ?_, ?_, ?_, ?_, ?_⟩ <;>
    first
    | (intro h; simp [CookiePot.setConsent, CookiePot.mergeConsent, h])
    | (intro b h; simp [CookiePot.setConsent, CookiePot.mergeConsent, h])

/-- C1 witness: supplying `necessary := false` and `analytics := true` onto
a state with marketing granted yields `necessary` true, `analytics` true,
and `marketing` retained as true. -/
theorem c1_setConsent_merges_witness :
    (CookiePot.setConsent
        { visitorId := "v", sessionId := "s", consentState := ⟨true, false, true, false⟩,
          cookieStore := none, localStore := none, googleSnapshot := none,
          blockerSnapshot := none, emitted := [] }
        ⟨some false, some true, none, none⟩ "t" (.ok ())).1.consentState.necessary = true
    ∧ (CookiePot.setConsent
        { visitorId := "v", sessionId := "s", consentState := ⟨true, false, true, false⟩,
          cookieStore := none, localStore := none, googleSnapshot := none,
          blockerSnapshot := none, emitted := [] }
        ⟨some false, some true, none, none⟩ "t" (.ok ())).1.consentState.analytics = true
    ∧ (CookiePot.setConsent
        { visitorId := "v", sessionId := "s", consentState := ⟨true, false, true, false⟩,
          cookieStore := none, localStore := none, googleSnapshot := none,
          blockerSnapshot := none, emitted := [] }
        ⟨some false, some true, none, none⟩ "t" (.ok ())).1.consentState.marketing = true := by
  have h := c1_setConsent_merges
    { visitorId := "v", sessionId := "s", consentState := ⟨true, false, true, false⟩,
      cookieStore := none, localStore := none, googleSnapshot := none,
      blockerSnapshot := none, emitted := [] }
    ⟨some false, some true, none, none⟩ "t" (.ok ())
  exact ⟨h.1, h.2.2.2.1 true rfl, (h.2.2.2.2.1 rfl).trans rfl⟩

/-- C7: in `CookiePot.setConsent`, the in-memory update, the persistence of
the merged record, the collaborator propagations and the change
notification all appear before the remote report attempt in the effect
trace; a report failure only appends a log step and leaves the resulting
state identical to the success case (nothing is undone, no error escapes:
the embedding returns normally in both cases). -/
theorem c7_report_failure_isolated (st : OrchestratorState) (u : ConsentUpdate)
    (ts : String) (e : String) :
    (CookiePot.setConsent st u ts (.error e)).1 = (CookiePot.setConsent st u ts (.ok ())).1
    ∧ (CookiePot.setConsent st u ts (.ok ())).2
        = CookiePot.localEffects st ++ [.reportConsent]
    ∧ (CookiePot.setConsent st u ts (.error e)).2
        = CookiePot.localEffects st ++ [.reportConsent] ++ [.logReportError]
    ∧ OrchestratorEffect.updateLocalState ∈ CookiePot.localEffects st
    ∧ OrchestratorEffect.saveToStorage ∈ CookiePot.localEffects st
    ∧ OrchestratorEffect.emitChange ∈ CookiePot.localEffects st
    ∧ (st.googleSnapshot.isSome = true →
        OrchestratorEffect.updateGoogle ∈ CookiePot.localEffects st)
    ∧ (st.blockerSnapshot.isSome = true →
        OrchestratorEffect.updateBlocker ∈ CookiePot.localEffects st)
    ∧ OrchestratorEffect.reportConsent ∉ CookiePot.localEffects st
    ∧ OrchestratorEffect.logReportError ∉ CookiePot.localEffects st := by
  refine ⟨rfl, by simp [CookiePot.setConsent], rfl, ?_, ?_, ?_, ?_, ?_, ?_, ?_⟩
  · simp [CookiePot.localEffects]
  · simp [CookiePot.localEffects]
  · simp [CookiePot.localEffects]
  · intro hg; simp [CookiePot.localEffects, hg]
  · intro hb; simp [CookiePot.localEffects, hb]
  · cases hg : st.googleSnapshot.isSome <;> cases hb : st.blockerSnapshot.isSome <;>
      simp [CookiePot.localEffects, hg, hb]
  · cases hg : st.googleSnapshot.isSome <;> cases hb : st.blockerSnapshot.isSome <;>
      simp [CookiePot.localEffects, hg, hb]

/-- C7 witness: with both collaborators configured, a failing report leaves
the state equal to the success case and both propagation steps appear in
the pre-report effect trace. -/
theorem c7_report_failure_isolated_witness :
    (CookiePot.setConsent
        { visitorId := "v", sessionId := "s", consentState := defaultConsent,
          cookieStore := none, localStore := none,
          googleSnapshot := some defaultConsent,
          blockerSnapshot := some defaultConsent, emitted := [] }
        ⟨none, some true, none, none⟩ "t" (.error "boom")).1
      = (CookiePot.setConsent
        { visitorId := "v", sessionId := "s", consentState := defaultConsent,
          cookieStore := none, localStore := none,
          googleSnapshot := some defaultConsent,
          blockerSnapshot := some defaultConsent, emitted := [] }
        ⟨none, some true, none, none⟩ "t" (.ok ())).1
    ∧ OrchestratorEffect.updateGoogle ∈ CookiePot.localEffects
        { visitorId := "v", sessionId := "s", consentState := defaultConsent,
          cookieStore := none, localStore := none,
          googleSnapshot := some defaultConsent,
          blockerSnapshot := some defaultConsent, emitted := [] }
    ∧ OrchestratorEffect.updateBlocker ∈ CookiePot.localEffects
        { visitorId := "v", sessionId := "s", consentState := defaultConsent,
          cookieStore := none, localStore := none,
          googleSnapshot := some defaultConsent,
          blockerSnapshot := some defaultConsent, emitted := [] } := by
  have h := c7_report_failure_isolated
    { visitorId := "v", sessionId := "s", consentState := defaultConsent,
      cookieStore := none, localStore := none,
      googleSnapshot := some defaultConsent,
      blockerSnapshot := some defaultConsent, emitted := [] }
    ⟨none, some true, none, none⟩ "t" "boom"
  exact ⟨h.1, h.2.2.2.2.2.2.1 rfl, h.2.2.2.2.2.2.2.1 rfl⟩

/-- C10: `CookiePot.resetConsent` clears both persistence backends, reverts
the in-memory categories to the defaults (`necessary` true, others false),
and emits a change notification, but performs no `updateConsent`
propagation to the script auto-blocker or the Google consent-mode adapter:
their consent snapshots keep their pre-reset values, and only the next
`setConsent` replaces them. -/
theorem c10_reset_skips_collaborators (st : OrchestratorState) (u : ConsentUpdate)
    (ts : String) (report : Except String Unit) :
    (CookiePot.resetConsent st).1.cookieStore = none
    ∧ (CookiePot.resetConsent st).1.localStore = none
    ∧ (CookiePot.resetConsent st).1.consentState = defaultConsent
    ∧ defaultConsent = ⟨true, false, false, false⟩
    ∧ (CookiePot.resetConsent st).1.emitted
        = st.emitted ++ [("consent:change", defaultConsent)]
    ∧ (CookiePot.resetConsent st).2
        = [.clearStorage, .updateLocalState, .emitChange]
    ∧ OrchestratorEffect.updateGoogle ∉ (CookiePot.resetConsent st).2
    ∧ OrchestratorEffect.updateBlocker ∉ (CookiePot.resetConsent st).2
    ∧ OrchestratorEffect.reportConsent ∉ (CookiePot.resetConsent st).2
    ∧ (CookiePot.resetConsent st).1.googleSnapshot = st.googleSnapshot
    ∧ (CookiePot.resetConsent st).1.blockerSnapshot = st.blockerSnapshot
    ∧ (CookiePot.setConsent (CookiePot.resetConsent st).1 u ts report).1.googleSnapshot
        = st.googleSnapshot.map (fun _ => CookiePot.mergeConsent defaultConsent u)
    ∧ (CookiePot.setConsent (CookiePot.resetConsent st).1 u ts report).1.blockerSnapshot
        = st.blockerSnapshot.map (fun _ => CookiePot.mergeConsent defaultConsent u) := by
  refine ⟨rfl, rfl, rfl, rfl, rfl, rfl, by simp [CookiePot.resetConsent],
    by simp [CookiePot.resetConsent], by simp [CookiePot.resetConsent], rfl, rfl, rfl, rfl⟩

theorem charsHavePre_iff (n : List Char) :
    ∀ h : List Char, charsHavePre n h = true ↔ n <+: h := by
  induction n with
  | nil => intro h; simp [charsHavePre]
  | cons a as ih =>
    intro h
    cases h with
    | nil => simp [charsHavePre]
    | cons b bs =>
      simp only [charsHavePre, Bool.and_eq_true, beq_iff_eq, List.cons_prefix_cons, ih]

theorem charsContain_iff (n : List Char) :
    ∀ h : List Char, charsContain n h = true ↔ n <:+: h := by
  intro h
  induction h with
  | nil =>
    simp only [charsContain, List.isEmpty_iff, List.infix_nil]
  | cons b bs ih =>
    simp only [charsContain, Bool.or_eq_true, charsHavePre_iff, ih, List.infix_cons_iff]

theorem categorizeKey_eq_find (key : String) :
    ∀ pats : List StoragePattern,
      StorageBlocker.categorizeKey pats key
        = ((pats.find? (fun p => keyPatternMatches p.pattern key)).map
            StoragePattern.category).getD .marketing := by
  intro pats
  induction pats with
  | nil => rfl
  | cons p rest ih =>
    by_cases hm : keyPatternMatches p.pattern key = true
    · simp [StorageBlocker.categorizeKey, List.find?_cons, hm]
    · have hm' : keyPatternMatches p.pattern key = false := Bool.eq_false_iff.mpr hm
      simp [StorageBlocker.categorizeKey, List.find?_cons, hm', ih]

theorem matchScriptToCategory_eq_find (compile : RegexCompile) (s : ScriptElem) :
    ∀ pats : List ScriptPattern,
      ScriptAutoBlocker.matchScriptToCategory compile pats s
        = (pats.find? (fun p =>
            (s.src != "" && ScriptAutoBlocker.matchesPattern compile s.src p.pattern)
            || (s.content != ""
                && ScriptAutoBlocker.matchesPattern compile s.content p.pattern))).map
              ScriptPattern.category := by
  intro pats
  induction pats with
  | nil => rfl
  | cons p rest ih =>
    by_cases hm : ((s.src != "" && ScriptAutoBlocker.matchesPattern compile s.src p.pattern)
        || (s.content != ""
            && ScriptAutoBlocker.matchesPattern compile s.content p.pattern)) = true
    · simp [ScriptAutoBlocker.matchScriptToCategory, List.find?_cons, hm]
    · have hm' := Bool.eq_false_iff.mpr hm
      simp [ScriptAutoBlocker.matchScriptToCategory, List.find?_cons, hm', ih]

/-- C4 counterexample: with the regex engine evaluated at its ECMA-262
behaviour on the metacharacter-free pattern "ga" (which compiles, and
whose case-insensitive test is substring containment), the script
interception engine's classifier matches the literal-string pattern "ga"
against the inserted script source "mega", although "mega" neither equals
"ga" nor starts with it — so it is not the case that in both engines a
literal-string pattern matches only inputs equal to it or starting with
it. -/
theorem c4_counterexample :
    ScriptAutoBlocker.matchScriptToCategory literalRegexCompile
        [{ pattern := "ga", category := .analytics }]
        { src := "mega", content := "", typeAttr := "text/javascript",
          processed := false, blockedMark := none } = some .analytics
    ∧ ¬(("mega" : String) = "ga" ∨ jsStartsWith "mega" "ga" = true) := by
  decide

/-- C4 (amended): in both classifiers the patterns are tried in declaration
order with the first match winning. In the storage engine a literal-string
pattern matches iff the input equals it or starts with it, and a
regular-expression pattern matches via its containment (`test`) call. In
the script engine, however, every pattern — literal string or regex
source — is matched by the case-insensitive compiled regular expression's
test against the (truthy) source URL and (truthy) inline content, with
case-insensitive substring containment as the fallback only when the
pattern fails to compile; for a metacharacter-free literal pattern the
compiled test is case-insensitive containment (ECMA-262), so such a
pattern matches by containment there, not only by equality or prefix. -/
theorem c4_amended_classifiers (pats : List StoragePattern) (spats : List ScriptPattern)
    (key text pat : String) (s : ScriptElem) (f : String → Bool)
    (compile : RegexCompile) :
    StorageBlocker.categorizeKey pats key
        = ((pats.find? (fun p => keyPatternMatches p.pattern key)).map
            StoragePattern.category).getD .marketing
    ∧ keyPatternMatches (.lit pat) key = (key == pat || jsStartsWith key pat)
    ∧ keyPatternMatches (.re f) key = f key
    ∧ ScriptAutoBlocker.matchScriptToCategory compile spats s
        = (spats.find? (fun p =>
            (s.src != "" && ScriptAutoBlocker.matchesPattern compile s.src p.pattern)
            || (s.content != ""
                && ScriptAutoBlocker.matchesPattern compile s.content p.pattern))).map
              ScriptPattern.category
    ∧ (∀ test : String → Bool, compile pat = some test →
        ScriptAutoBlocker.matchesPattern compile text pat = test text)
    ∧ (compile pat = none →
        ScriptAutoBlocker.matchesPattern compile text pat = containsCI text pat)
    ∧ (ScriptAutoBlocker.matchesPattern literalRegexCompile text pat = true
        ↔ jsToLower pat <:+: jsToLower text) := by
  refine ⟨categorizeKey_eq_find key pats, rfl, rfl,
    matchScriptToCategory_eq_find compile s spats, ?_, ?_, ?_⟩
  · intro test ht
    simp [ScriptAutoBlocker.matchesPattern, ht]
  · intro ht
    simp [ScriptAutoBlocker.matchesPattern, ht]
  · exact charsContain_iff (jsToLower pat) (jsToLower text)

/-- C4 amended-claim witness: the metacharacter-free pattern "ga" compiles
under the ECMA-262 literal-fragment engine, the engine's match is the
compiled test, and the input "mega" matches it by case-insensitive
containment. -/
theorem c4_amended_classifiers_witness :
    ScriptAutoBlocker.matchesPattern literalRegexCompile "mega" "ga" = true
    ∧ jsToLower "ga" <:+: jsToLower "mega" := by
  have h := c4_amended_classifiers [] [] "k" "mega" "ga"
    { src := "", content := "", typeAttr := "", processed := false, blockedMark := none }
    (fun _ => false) literalRegexCompile
  have hm : ScriptAutoBlocker.matchesPattern literalRegexCompile "mega" "ga" = true :=
    (h.2.2.2.2.1 (fun text => containsCI text "ga") rfl).trans (by decide)
  exact ⟨hm, (h.2.2.2.2.2.2).mp hm⟩

/-- C5: a storage key matching no pattern in the table classifies to
`marketing` (fail-closed); an inserted, not-yet-processed script whose
source URL and inline content match no script pattern gets no category and
is left untouched apart from being marked processed, with nothing recorded
as blocked (fail-open). -/
theorem c5_default_classification :
    (∀ (pats : List StoragePattern) (key : String),
        (∀ p ∈ pats, keyPatternMatches p.pattern key = false) →
        StorageBlocker.categorizeKey pats key = .marketing)
    ∧ (∀ (compile : RegexCompile) (pats : List ScriptPattern) (s : ScriptElem),
        (∀ p ∈ pats,
          ((s.src != "" && ScriptAutoBlocker.matchesPattern compile s.src p.pattern)
            || (s.content != ""
                && ScriptAutoBlocker.matchesPattern compile s.content p.pattern))
            = false) →
        ScriptAutoBlocker.matchScriptToCategory compile pats s = none)
    ∧ (∀ (compile : RegexCompile) (pats : List ScriptPattern)
          (consent : ConsentCategories) (blocked : List BlockedScript) (s : ScriptElem),
        s.processed = false →
        ScriptAutoBlocker.matchScriptToCategory compile pats s = none →
        ScriptAutoBlocker.handleScriptTag compile pats consent blocked s
          = ({ s with processed := true }, blocked)) := by
  refine ⟨?_, ?_, ?_⟩
  · intro pats key hnone
    induction pats with
    | nil => rfl
    | cons p rest ih =>
      have hp := hnone p (List.mem_cons_self p rest)
      simp [StorageBlocker.categorizeKey, hp,
        ih (fun q hq => hnone q (List.mem_cons_of_mem p hq))]
  · intro compile pats s hnone
    induction pats with
    | nil => rfl
    | cons p rest ih =>
      have hp := hnone p (List.mem_cons_self p rest)
      simp only [ScriptAutoBlocker.matchScriptToCategory, hp, Bool.false_eq_true,
        if_false]
      exact ih (fun q hq => hnone q (List.mem_cons_of_mem p hq))
  · intro compile pats consent blocked s hp hm
    simp [ScriptAutoBlocker.handleScriptTag, hp, hm]

/-- C5 witness: the unmatched key "_unknown" classifies to marketing, and an
unmatched first-party script is only marked processed — same element
otherwise, nothing blocked. -/
theorem c5_default_classification_witness :
    StorageBlocker.categorizeKey
        [{ pattern := .lit "theme", category := .preferences }] "_unknown" = .marketing
    ∧ ScriptAutoBlocker.handleScriptTag literalRegexCompile
        [{ pattern := "gtag", category := .analytics }] ⟨true, false, false, false⟩ []
        { src := "https://example.com/app.js", content := "",
          typeAttr := "text/javascript", processed := false, blockedMark := none }
      = ({ src := "https://example.com/app.js", content := "",
           typeAttr := "text/javascript", processed := true, blockedMark := none }, []) := by
  refine ⟨c5_default_classification.1
      [{ pattern := .lit "theme", category := .preferences }] "_unknown" ?_,
    c5_default_classification.2.2 literalRegexCompile
      [{ pattern := "gtag", category := .analytics }] ⟨true, false, false, false⟩ []
      { src := "https://example.com/app.js", content := "",
        typeAttr := "text/javascript", processed := false, blockedMark := none }
      rfl (by decide)⟩
  intro p hp
  rcases List.mem_singleton.mp hp with rfl
  decide

theorem c8_fallback_absent (parse : String → Option Json) (localAvail : Bool)
    (localVal : Option String)
    (hlocal : localValidRecord parse localAvail localVal = none) :
    (getConsentFromStorage parse none localAvail localVal).1 = none := by
  cases localAvail with
  | false => rfl
  | true =>
    rcases localVal with _ | lv
    · rfl
    · by_cases he : (lv != "") = true
      · rcases hp : parse lv with _ | j
        · simp [getConsentFromStorage, getConsentBody, he, hp]
        · have hv : parseConsentState j = none := by
            simpa [localValidRecord, he, hp] using hlocal
          simp [getConsentFromStorage, getConsentBody, he, hp, hv]
      · have he' : (lv != "") = false := Bool.eq_false_iff.mpr he
        simp [getConsentFromStorage, getConsentBody, he']

/-- C8: the persistence load never lets a failure escape: whenever the
durable cookie store and the fallback local store each hold data that is
absent, unparseable (a thrown `JSON.parse` reaches the `catch`), or fails
`ConsentStateSchema` validation, `getConsentFromStorage` returns absent
(`none`) rather than an error or a partially-valid object; a valid record
in the cookie store is preferred and returned without consulting the
fallback, and the fallback store is consulted only when the cookie store
yields no valid record. -/
theorem c8_load_degrades_to_absent (parse : String → Option Json)
    (cookieVal : Option String) (localAvail : Bool) (localVal : Option String) :
    (∀ v, cookieValidRecord parse cookieVal = some v →
        getConsentFromStorage parse cookieVal localAvail localVal = (some v, false))
    ∧ (cookieValidRecord parse cookieVal = none →
        localValidRecord parse localAvail localVal = none →
        (getConsentFromStorage parse cookieVal localAvail localVal).1 = none)
    ∧ ((getConsentFromStorage parse cookieVal localAvail localVal).2 = true →
        cookieValidRecord parse cookieVal = none) := by
  have hfb := c8_fallback_absent parse localAvail localVal
  rcases cookieVal with _ | cv
  · refine ⟨?_, ?_, ?_⟩
    · intro v hv; simp [cookieValidRecord] at hv
    · intro _ hlocal; exact hfb hlocal
    · intro _; rfl
  · by_cases he : (cv != "") = true
    · rcases hp : parse cv with _ | j
      · refine ⟨?_, ?_, ?_⟩
        · intro v hv; simp [cookieValidRecord, he, hp] at hv
        · intro _ _; simp [getConsentFromStorage, getConsentBody, he, hp]
        · intro habs
          have hflag : (getConsentFromStorage parse (some cv) localAvail localVal).2
              = false := by
            simp [getConsentFromStorage, getConsentBody, he, hp]
          rw [hflag] at habs; simp at habs
      · rcases hv : parseConsentState j with _ | v
        · have hceq : getConsentFromStorage parse (some cv) localAvail localVal
              = getConsentFromStorage parse none localAvail localVal := by
            simp [getConsentFromStorage, getConsentBody, he, hp, hv]
          refine ⟨?_, ?_, ?_⟩
          · intro v' hv'; simp [cookieValidRecord, he, hp, hv] at hv'
          · intro _ hlocal; rw [hceq]; exact hfb hlocal
          · intro _; simp [cookieValidRecord, he, hp, hv]
        · have hres : getConsentFromStorage parse (some cv) localAvail localVal
              = (some v, false) := by
            simp [getConsentFromStorage, getConsentBody, he, hp, hv]
          refine ⟨?_, ?_, ?_⟩
          · intro v' hv'
            have hvv : v = v' := by simpa [cookieValidRecord, he, hp, hv] using hv'
            rw [hres, hvv]
          · intro hc _; simp [cookieValidRecord, he, hp, hv] at hc
          · intro habs; rw [hres] at habs; simp at habs
    · have he' : (cv != "") = false := Bool.eq_false_iff.mpr he
      have hceq : getConsentFromStorage parse (some cv) localAvail localVal
          = getConsentFromStorage parse none localAvail localVal := by
        simp [getConsentFromStorage, getConsentBody, he']
      refine ⟨?_, ?_, ?_⟩
      · intro v hv; simp [cookieValidRecord, he'] at hv
      · intro _ hlocal; rw [hceq]; exact hfb hlocal
      · intro _; simp [cookieValidRecord, he']

/-- C8 witness: a valid cookie record loads with the fallback unconsulted;
an unparseable cookie together with an unparseable fallback degrades to
absent. -/
theorem c8_load_degrades_to_absent_witness :
    getConsentFromStorage sampleParse (some "good") true (some "junk")
      = (some { visitorId := "v1", sessionId := "s1",
                categories := ⟨true, true, false, false⟩, timestamp := none }, false)
    ∧ (getConsentFromStorage sampleParse (some "junk") true (some "junk")).1 = none := by
  exact ⟨(c8_load_degrades_to_absent sampleParse (some "good") true (some "junk")).1
      { visitorId := "v1", sessionId := "s1",
        categories := ⟨true, true, false, false⟩, timestamp := none } (by decide),
    (c8_load_degrades_to_absent sampleParse (some "junk") true (some "junk")).2.1
      (by decide) (by decide)⟩
